import Mathlib

/-
  Verification development for the DailyMed API command-line client
  (src/dailymed_client.py). The Python module is shallowly embedded:
  query-parameter dictionaries become association lists, the HTTP
  transport becomes an explicit network-outcome parameter, and the
  request executor and resource methods become pure Lean functions.
-/

set_option autoImplicit false

namespace DailyMed

/-- Scalar values that appear as query-parameter values in the client:
the absent marker None, strings, integers, and booleans. -/
inductive PyVal where
  | none
  | str (s : String)
  | int (n : Int)
  | bool (b : Bool)
deriving DecidableEq, Repr

/-- Query-parameter dictionaries, as insertion-ordered association lists
(the embedding of Python dict objects used for request parameters). -/
abbrev ParamDict := List (String × PyVal)

/-- Python dict assignment `d[key] = value`: overwrite in place when the
key already exists, otherwise append at the end. -/
def dictSet (d : ParamDict) (key : String) (value : PyVal) : ParamDict :=
  if d.any (fun p => p.1 == key) then
    d.map (fun p => if p.1 == key then (key, value) else p)
  else
    d ++ [(key, value)]

/-- Embedding of `DailyMedAPI._add_if_present` (lines 17-20): add the
parameter only when the value is not None. -/
def _add_if_present (params : ParamDict) (key : String) (value : PyVal) : ParamDict :=
  if value ≠ PyVal.none then dictSet params key value else params

/-- Embedding of the None-cleaning loop at the top of
`DailyMedAPI._make_request` (lines 39-44): with no dict supplied the
cleaned dict is empty, otherwise entries whose value is None are dropped. -/
def cleanParams : Option ParamDict → ParamDict
  | Option.none => []
  | some ps => ps.filter (fun p => decide (p.2 ≠ PyVal.none))

/-- Embedding of the Python `str.endswith` test used on endpoint paths. -/
def strEndsWith (s suffix : String) : Bool :=
  decide (suffix.length ≤ s.length) &&
    (s.data.drop (s.length - suffix.length) == suffix.data)

/-- JSON values as returned by the external JSON decoder on response
bodies. -/
inductive JsonVal where
  | null
  | bool (b : Bool)
  | num (n : Int)
  | str (s : String)
  | arr (items : List JsonVal)
  | obj (fields : List (String × JsonVal))

/-- Double-quote character, built by code point to keep string building
explicit. -/
def charQuote : Char := Char.ofNat 34

/-- Backslash character. -/
def charBackslash : Char := Char.ofNat 92

/-- Single-quote character. -/
def charSingleQuote : Char := Char.ofNat 39

/-- Opening curly brace as a one-character string. -/
def lbrace : String := String.singleton (Char.ofNat 123)

/-- Closing curly brace as a one-character string. -/
def rbrace : String := String.singleton (Char.ofNat 125)

/-- Escaping of a single character inside a JSON string literal, as the
external `json.dumps` serializer performs it for the common escapes. -/
def jsonEscapeChar (c : Char) : String :=
  if c = charQuote then String.singleton charBackslash ++ String.singleton charQuote
  else if c = charBackslash then String.singleton charBackslash ++ String.singleton charBackslash
  else if c = Char.ofNat 10 then String.singleton charBackslash ++ "n"
  else if c = Char.ofNat 9 then String.singleton charBackslash ++ "t"
  else if c = Char.ofNat 13 then String.singleton charBackslash ++ "r"
  else String.singleton c

/-- Escape every character of a string for a JSON string literal. -/
def jsonEscape (s : String) : String :=
  String.join (s.data.map jsonEscapeChar)

/-- A JSON string literal: escaped content between double quotes. -/
def jsonQuote (s : String) : String :=
  String.singleton charQuote ++ jsonEscape s ++ String.singleton charQuote

/-- Join a list of strings with a separator between consecutive items. -/
def joinSep (sep : String) : List String → String
  | [] => ""
  | [x] => x
  | x :: y :: xs => x ++ sep ++ joinSep sep (y :: xs)

/-- A run of space characters used for indentation. -/
def spaces (n : Nat) : String :=
  String.mk (List.replicate n (Char.ofNat 32))

mutual

/-- Embedding of `json.dumps(v, indent=2)` at current indentation `ind`:
the indented serialization the client uses to render JSON results. -/
def dumpsVal (ind : Nat) : JsonVal → String
  | JsonVal.null => "null"
  | JsonVal.bool true => "true"
  | JsonVal.bool false => "false"
  | JsonVal.num n => toString n
  | JsonVal.str s => jsonQuote s
  | JsonVal.arr [] => "[]"
  | JsonVal.arr (v :: vs) =>
      "[" ++ String.singleton (Char.ofNat 10) ++
        joinSep ("," ++ String.singleton (Char.ofNat 10)) (dumpsItems (ind + 2) (v :: vs)) ++
        String.singleton (Char.ofNat 10) ++ spaces ind ++ "]"
  | JsonVal.obj [] => lbrace ++ rbrace
  | JsonVal.obj (f :: fs) =>
      lbrace ++ String.singleton (Char.ofNat 10) ++
        joinSep ("," ++ String.singleton (Char.ofNat 10)) (dumpsFields (ind + 2) (f :: fs)) ++
        String.singleton (Char.ofNat 10) ++ spaces ind ++ rbrace

/-- Render each array item on its own indented line. -/
def dumpsItems (ind : Nat) : List JsonVal → List String
  | [] => []
  | v :: vs => (spaces ind ++ dumpsVal ind v) :: dumpsItems ind vs

/-- Render each object field on its own indented line as key: value. -/
def dumpsFields (ind : Nat) : List (String × JsonVal) → List String
  | [] => []
  | (k, v) :: fs => (spaces ind ++ jsonQuote k ++ ": " ++ dumpsVal ind v) :: dumpsFields ind fs

end

mutual

/-- Embedding of the Python textual form str(v) of a decoded JSON value,
as `print(result)` would show it when the value is not a string. -/
def pyRepr : JsonVal → String
  | JsonVal.null => "None"
  | JsonVal.bool true => "True"
  | JsonVal.bool false => "False"
  | JsonVal.num n => toString n
  | JsonVal.str s =>
      String.singleton charSingleQuote ++ s ++ String.singleton charSingleQuote
  | JsonVal.arr items => "[" ++ joinSep ", " (pyReprItems items) ++ "]"
  | JsonVal.obj fields => lbrace ++ joinSep ", " (pyReprFields fields) ++ rbrace

/-- Textual forms of list elements for `pyRepr`. -/
def pyReprItems : List JsonVal → List String
  | [] => []
  | v :: vs => pyRepr v :: pyReprItems vs

/-- Textual forms of dict entries for `pyRepr`. -/
def pyReprFields : List (String × JsonVal) → List String
  | [] => []
  | (k, v) :: fs =>
      (String.singleton charSingleQuote ++ k ++ String.singleton charSingleQuote ++
        ": " ++ pyRepr v) :: pyReprFields fs

end

/-- The sentinel dictionary returned by `_make_request` when a JSON
endpoint answers with an empty body (line 60). -/
def no_content_sentinel : JsonVal :=
  JsonVal.obj [("message", JsonVal.str "Request successful, but no content returned.")]

/-- Outcome of the single HTTP GET performed by a request, as seen by the
client: a response with status, raw body and the result of the external
JSON decoder on that body, or one of the transport-level failures that
the `requests` library raises. -/
inductive NetOutcome where
  | response (status : Nat) (body : String) (decoded : Option JsonVal)
  | connectionFailure
  | timeoutFailure
  | otherRequestFailure

/-- The exception classes `_make_request` can let escape (lines 64-79). -/
inductive ApiError where
  | httpError (status : Nat) (body : String)
  | connectionError
  | timeoutError
  | requestError
  | decodeError
deriving DecidableEq, Repr

/-- Successful result of `_make_request`: a decoded JSON value for
JSON endpoints or the raw text body for .xml endpoints. -/
inductive ApiResult where
  | jsonResult (j : JsonVal)
  | xmlResult (s : String)

/-- Base URL of the service (line 15). -/
def BASE_URL : String := "https://dailymed.nlm.nih.gov/dailymed/services/v2"

/-- The outgoing HTTP request: full URL and the query mapping actually
sent (the cleaned parameter dictionary). -/
structure Request where
  url : String
  query : ParamDict

/-- Response handling of `_make_request` (lines 48-79): raise for a 4xx
or 5xx status, return raw text for .xml endpoints, substitute the
no-content sentinel for an empty JSON body, and otherwise decode JSON,
failing with a decode error when the external decoder fails. -/
def _response_dispatch (endpoint : String) (net : NetOutcome) : Except ApiError ApiResult :=
  match net with
  | NetOutcome.connectionFailure => Except.error ApiError.connectionError
  | NetOutcome.timeoutFailure => Except.error ApiError.timeoutError
  | NetOutcome.otherRequestFailure => Except.error ApiError.requestError
  | NetOutcome.response status body decoded =>
      if 400 ≤ status ∧ status < 600 then
        Except.error (ApiError.httpError status body)
      else if strEndsWith endpoint ".xml" then
        Except.ok (ApiResult.xmlResult body)
      else if body = "" then
        Except.ok (ApiResult.jsonResult no_content_sentinel)
      else
        match decoded with
        | some j => Except.ok (ApiResult.jsonResult j)
        | Option.none => Except.error ApiError.decodeError

/-- Embedding of `DailyMedAPI._make_request` (lines 22-79): clean the
parameters of None values, build the request URL, perform the GET with
the cleaned query, and dispatch on the response. The first component is
the outgoing request, the second the returned value or raised error. -/
def _make_request (endpoint : String) (params : Option ParamDict) (net : NetOutcome) :
    Request × Except ApiError ApiResult :=
  (⟨BASE_URL ++ "/" ++ endpoint, cleanParams params⟩, _response_dispatch endpoint net)

/-- The diagnostic line `_make_request` prints to stderr before
re-raising each exception (lines 64-79), keyed by the error. -/
def _make_request_error_message : ApiError → String
  | ApiError.httpError status body =>
      "HTTP error occurred: " ++ toString status ++ " " ++ body
  | ApiError.connectionError => "Connection error occurred"
  | ApiError.timeoutError => "Timeout error occurred"
  | ApiError.requestError => "An unexpected error occurred"
  | ApiError.decodeError => "Failed to decode JSON response"

/-- The Python exception class of each error the client can raise. -/
def errorClass : ApiError → String
  | ApiError.httpError _ _ => "HTTPError"
  | ApiError.connectionError => "ConnectionError"
  | ApiError.timeoutError => "Timeout"
  | ApiError.requestError => "RequestException"
  | ApiError.decodeError => "JSONDecodeError"

/-- Embedding of `DailyMedAPI.search_spls` (lines 81-127): page and
pagesize first, then each optional filter added only when present, then
the request against spls.json. -/
def search_spls (page pagesize : Int)
    (application_number boxed_warning dea_schedule_code doctype drug_class_code
      drug_class_coding_system drug_name name_type labeler manufacturer
      marketing_category_code ndc published_date published_date_comparison rxcui
      setid unii_code : PyVal)
    (net : NetOutcome) : Request × Except ApiError ApiResult :=
  let params : ParamDict := [("page", PyVal.int page), ("pagesize", PyVal.int pagesize)]
  let params := _add_if_present params "application_number" application_number
  let params := _add_if_present params "boxed_warning" boxed_warning
  let params := _add_if_present params "dea_schedule_code" dea_schedule_code
  let params := _add_if_present params "doctype" doctype
  let params := _add_if_present params "drug_class_code" drug_class_code
  let params := _add_if_present params "drug_class_coding_system" drug_class_coding_system
  let params := _add_if_present params "drug_name" drug_name
  let params := _add_if_present params "name_type" name_type
  let params := _add_if_present params "labeler" labeler
  let params := _add_if_present params "manufacturer" manufacturer
  let params := _add_if_present params "marketing_category_code" marketing_category_code
  let params := _add_if_present params "ndc" ndc
  let params := _add_if_present params "published_date" published_date
  let params := _add_if_present params "published_date_comparison" published_date_comparison
  let params := _add_if_present params "rxcui" rxcui
  let params := _add_if_present params "setid" setid
  let params := _add_if_present params "unii_code" unii_code
  _make_request "spls.json" (some params) net

/-- Embedding of `DailyMedAPI.get_spl_by_setid` (lines 129-141): fetch
the .xml document for one SET ID, with no query parameters. -/
def get_spl_by_setid (set_id : String) (net : NetOutcome) :
    Request × Except ApiError ApiResult :=
  _make_request ("spls/" ++ set_id ++ ".xml") Option.none net

/-- Embedding of `DailyMedAPI.get_spl_history` (lines 143-148). -/
def get_spl_history (set_id : String) (net : NetOutcome) :
    Request × Except ApiError ApiResult :=
  _make_request ("spls/" ++ set_id ++ "/history.json") Option.none net

/-- Embedding of `DailyMedAPI.get_spl_ndcs` (lines 150-155). -/
def get_spl_ndcs (set_id : String) (net : NetOutcome) :
    Request × Except ApiError ApiResult :=
  _make_request ("spls/" ++ set_id ++ "/ndcs.json") Option.none net

/-- Embedding of `DailyMedAPI.get_spl_packaging` (lines 157-162). -/
def get_spl_packaging (set_id : String) (net : NetOutcome) :
    Request × Except ApiError ApiResult :=
  _make_request ("spls/" ++ set_id ++ "/packaging.json") Option.none net

/-- Embedding of `DailyMedAPI.get_drug_names` (lines 164-178). -/
def get_drug_names (page pagesize : Int) (manufacturer name_type : PyVal)
    (net : NetOutcome) : Request × Except ApiError ApiResult :=
  let params : ParamDict := [("page", PyVal.int page), ("pagesize", PyVal.int pagesize)]
  let params := _add_if_present params "manufacturer" manufacturer
  let params := _add_if_present params "name_type" name_type
  _make_request "drugnames.json" (some params) net

/-- Embedding of `DailyMedAPI.get_ndcs` (lines 180-198). -/
def get_ndcs (page pagesize : Int)
    (application_number labeler marketing_category_code setid : PyVal)
    (net : NetOutcome) : Request × Except ApiError ApiResult :=
  let params : ParamDict := [("page", PyVal.int page), ("pagesize", PyVal.int pagesize)]
  let params := _add_if_present params "application_number" application_number
  let params := _add_if_present params "labeler" labeler
  let params := _add_if_present params "marketing_category_code" marketing_category_code
  let params := _add_if_present params "setid" setid
  _make_request "ndcs.json" (some params) net

/-- Embedding of `DailyMedAPI.get_drug_classes` (lines 200-220). -/
def get_drug_classes (page pagesize : Int)
    (drug_class_code drug_class_coding_system class_code_type class_name unii_code : PyVal)
    (net : NetOutcome) : Request × Except ApiError ApiResult :=
  let params : ParamDict := [("page", PyVal.int page), ("pagesize", PyVal.int pagesize)]
  let params := _add_if_present params "drug_class_code" drug_class_code
  let params := _add_if_present params "drug_class_coding_system" drug_class_coding_system
  let params := _add_if_present params "class_code_type" class_code_type
  let params := _add_if_present params "class_name" class_name
  let params := _add_if_present params "unii_code" unii_code
  _make_request "drugclasses.json" (some params) net

/-- Embedding of `DailyMedAPI.get_uniis` (lines 222-242). -/
def get_uniis (page pagesize : Int)
    (active_moiety drug_class_code drug_class_coding_system rxcui unii_code : PyVal)
    (net : NetOutcome) : Request × Except ApiError ApiResult :=
  let params : ParamDict := [("page", PyVal.int page), ("pagesize", PyVal.int pagesize)]
  let params := _add_if_present params "active_moiety" active_moiety
  let params := _add_if_present params "drug_class_code" drug_class_code
  let params := _add_if_present params "drug_class_coding_system" drug_class_coding_system
  let params := _add_if_present params "rxcui" rxcui
  let params := _add_if_present params "unii_code" unii_code
  _make_request "uniis.json" (some params) net

/-- Embedding of `DailyMedAPI.get_rxcuis` (lines 244-260). -/
def get_rxcuis (page pagesize : Int) (rxcui rxstring rxtty : PyVal)
    (net : NetOutcome) : Request × Except ApiError ApiResult :=
  let params : ParamDict := [("page", PyVal.int page), ("pagesize", PyVal.int pagesize)]
  let params := _add_if_present params "rxcui" rxcui
  let params := _add_if_present params "rxstring" rxstring
  let params := _add_if_present params "rxtty" rxtty
  _make_request "rxcuis.json" (some params) net

/-- Default page of the `search_spls` method signature (line 83). -/
def search_spls_default_page : Int := 1

/-- Default pagesize of the `search_spls` method signature (line 84). -/
def search_spls_default_pagesize : Int := 10

/-- Default page of `get_drug_names` (line 166). -/
def get_drug_names_default_page : Int := 1

/-- Default pagesize of `get_drug_names` (line 167). -/
def get_drug_names_default_pagesize : Int := 10

/-- Default page of `get_ndcs` (line 182). -/
def get_ndcs_default_page : Int := 1

/-- Default pagesize of `get_ndcs` (line 183). -/
def get_ndcs_default_pagesize : Int := 10

/-- Default page of `get_drug_classes` (line 202). -/
def get_drug_classes_default_page : Int := 1

/-- Default pagesize of `get_drug_classes` (line 203). -/
def get_drug_classes_default_pagesize : Int := 10

/-- Default page of `get_uniis` (line 224). -/
def get_uniis_default_page : Int := 1

/-- Default pagesize of `get_uniis` (line 225). -/
def get_uniis_default_pagesize : Int := 10

/-- Default page of `get_rxcuis` (line 246). -/
def get_rxcuis_default_page : Int := 1

/-- Default pagesize of `get_rxcuis` (line 247). -/
def get_rxcuis_default_pagesize : Int := 10

/-- Default of the CLI --page flag of the search-spls subcommand
(line 279). -/
def cli_search_spls_default_page : Int := 1

/-- Default of the CLI --pagesize flag of the search-spls subcommand
(line 280). -/
def cli_search_spls_default_pagesize : Int := 5

/-- Default of the CLI --pagesize flag of the get-drugnames, get-ndcs,
get-drugclasses, get-uniis and get-rxcuis subcommands (lines 321, 328,
337, 347, 357). -/
def cli_list_default_pagesize : Int := 10

/-- Default of the CLI --page flag of the listing subcommands
(lines 320, 327, 336, 346, 356). -/
def cli_list_default_page : Int := 1

/-- A `search_spls()` call with every argument left at its signature
default, as Python would complete it. -/
def search_spls_with_defaults (net : NetOutcome) : Request × Except ApiError ApiResult :=
  search_spls search_spls_default_page search_spls_default_pagesize
    PyVal.none PyVal.none PyVal.none PyVal.none PyVal.none PyVal.none PyVal.none
    PyVal.none PyVal.none PyVal.none PyVal.none PyVal.none PyVal.none PyVal.none
    PyVal.none PyVal.none PyVal.none net

/-- Truthiness of a decoded JSON value under the Python `if result:`
test: empty containers, empty strings, zero, False and None are falsy. -/
def jsonTruthy : JsonVal → Bool
  | JsonVal.null => false
  | JsonVal.bool b => b
  | JsonVal.num n => decide (n ≠ 0)
  | JsonVal.str s => decide (s ≠ "")
  | JsonVal.arr [] => false
  | JsonVal.arr (_ :: _) => true
  | JsonVal.obj [] => false
  | JsonVal.obj (_ :: _) => true

/-- Truthiness of a resource-method result under `if result:`
(line 452). -/
def pyTruthy : ApiResult → Bool
  | ApiResult.xmlResult s => decide (s ≠ "")
  | ApiResult.jsonResult j => jsonTruthy j

/-- Embedding of `pretty_print_json` (lines 262-264): the single line
printed is `json.dumps(data, indent=2)`. -/
def pretty_print_json (data : JsonVal) : String := dumpsVal 0 data

/-- The text `print(result)` would output for a result value. -/
def resultRawText : ApiResult → String
  | ApiResult.xmlResult s => s
  | ApiResult.jsonResult j => pyRepr j

/-- The JSON value `pretty_print_json(result)` serializes: a string
result becomes a JSON string, a decoded value is serialized as is. -/
def resultAsJson : ApiResult → JsonVal
  | ApiResult.xmlResult s => JsonVal.str s
  | ApiResult.jsonResult j => j

/-- Embedding of the result-rendering block of `main` (lines 452-458):
a falsy result prints nothing at all; otherwise the get-spl subcommand
prints an XML header and the raw result, and every other subcommand
prints a header and the indented JSON serialization. Each list element
is the payload of one print call. -/
def renderOutput (command : String) (result : ApiResult) : List String :=
  if pyTruthy result then
    if command == "get-spl" then
      ["API Response (XML):", resultRawText result]
    else
      ["API Response:", pretty_print_json (resultAsJson result)]
  else
    []

/-- Exit code of `main` as a function of the dispatched call outcome
(lines 366-466): normal return, hence code 0, on success; `sys.exit(1)`
in every exception handler. -/
def mainExitCode : Except ApiError ApiResult → Nat
  | Except.ok _ => 0
  | Except.error _ => 1

/-- Whether a call outcome is a success. -/
def isSuccess : Except ApiError ApiResult → Bool
  | Except.ok _ => true
  | Except.error _ => false

/-- Embedding of Python bool() applied to a string, as `argparse` does
for a flag declared with type=bool: true exactly on non-empty strings. -/
def py_bool_of_string (s : String) : Bool := decide (s ≠ "")

/-- Value the CLI passes for boxed_warning (line 282 with line 373):
None when the flag is absent, otherwise bool() of the supplied string. -/
def cli_parse_boxed_warning : Option String → PyVal
  | Option.none => PyVal.none
  | some s => PyVal.bool (py_bool_of_string s)

/-- Dict assignment under a different key preserves existing entries. -/
theorem mem_dictSet_of_ne {d : ParamDict} {k : String} {v : PyVal} {key : String}
    {value : PyVal} (h : k ≠ key) (hm : (k, v) ∈ d) : (k, v) ∈ dictSet d key value := by
  unfold dictSet
  split
  · exact List.mem_map.mpr ⟨(k, v), hm, by simp [h]⟩
  · exact List.mem_append_left _ hm

/-- Adding an optional parameter under a different key preserves existing
entries, whether or not the value is present. -/
theorem mem_add_if_present_of_ne {params : ParamDict} {k : String} {v : PyVal}
    {key : String} {value : PyVal} (h : k ≠ key) (hm : (k, v) ∈ params) :
    (k, v) ∈ _add_if_present params key value := by
  unfold _add_if_present
  split
  · exact mem_dictSet_of_ne h hm
  · exact hm

/-- Membership in the cleaned parameter dict is membership in the input
together with the value being present. -/
theorem mem_cleanParams {l : ParamDict} {p : String × PyVal} :
    p ∈ cleanParams (some l) ↔ p ∈ l ∧ p.2 ≠ PyVal.none := by
  simp [cleanParams, List.mem_filter]

/-- Every `search_spls` call sends both page and pagesize. -/
theorem search_spls_query_paging (page pagesize : Int)
    (a b c d e f g h i j k l m n o q r : PyVal) (net : NetOutcome) :
    ("page", PyVal.int page) ∈
      (search_spls page pagesize a b c d e f g h i j k l m n o q r net).1.query ∧
    ("pagesize", PyVal.int pagesize) ∈
      (search_spls page pagesize a b c d e f g h i j k l m n o q r net).1.query := by
  constructor <;>
  · refine mem_cleanParams.mpr ⟨?_, by simp⟩
    repeat (refine mem_add_if_present_of_ne (by decide) ?_)
    simp

/-- Every `get_drug_names` call sends both page and pagesize. -/
theorem get_drug_names_query_paging (page pagesize : Int) (a b : PyVal)
    (net : NetOutcome) :
    ("page", PyVal.int page) ∈ (get_drug_names page pagesize a b net).1.query ∧
    ("pagesize", PyVal.int pagesize) ∈ (get_drug_names page pagesize a b net).1.query := by
  constructor <;>
  · refine mem_cleanParams.mpr ⟨?_, by simp⟩
    repeat (refine mem_add_if_present_of_ne (by decide) ?_)
    simp

/-- Every `get_ndcs` call sends both page and pagesize. -/
theorem get_ndcs_query_paging (page pagesize : Int) (a b c d : PyVal)
    (net : NetOutcome) :
    ("page", PyVal.int page) ∈ (get_ndcs page pagesize a b c d net).1.query ∧
    ("pagesize", PyVal.int pagesize) ∈ (get_ndcs page pagesize a b c d net).1.query := by
  constructor <;>
  · refine mem_cleanParams.mpr ⟨?_, by simp⟩
    repeat (refine mem_add_if_present_of_ne (by decide) ?_)
    simp

/-- Every `get_drug_classes` call sends both page and pagesize. -/
theorem get_drug_classes_query_paging (page pagesize : Int) (a b c d e : PyVal)
    (net : NetOutcome) :
    ("page", PyVal.int page) ∈ (get_drug_classes page pagesize a b c d e net).1.query ∧
    ("pagesize", PyVal.int pagesize) ∈ (get_drug_classes page pagesize a b c d e net).1.query := by
  constructor <;>
  · refine mem_cleanParams.mpr ⟨?_, by simp⟩
    repeat (refine mem_add_if_present_of_ne (by decide) ?_)
    simp

/-- Every `get_uniis` call sends both page and pagesize. -/
theorem get_uniis_query_paging (page pagesize : Int) (a b c d e : PyVal)
    (net : NetOutcome) :
    ("page", PyVal.int page) ∈ (get_uniis page pagesize a b c d e net).1.query ∧
    ("pagesize", PyVal.int pagesize) ∈ (get_uniis page pagesize a b c d e net).1.query := by
  constructor <;>
  · refine mem_cleanParams.mpr ⟨?_, by simp⟩
    repeat (refine mem_add_if_present_of_ne (by decide) ?_)
    simp

/-- Every `get_rxcuis` call sends both page and pagesize. -/
theorem get_rxcuis_query_paging (page pagesize : Int) (a b c : PyVal)
    (net : NetOutcome) :
    ("page", PyVal.int page) ∈ (get_rxcuis page pagesize a b c net).1.query ∧
    ("pagesize", PyVal.int pagesize) ∈ (get_rxcuis page pagesize a b c net).1.query := by
  constructor <;>
  · refine mem_cleanParams.mpr ⟨?_, by simp⟩
    repeat (refine mem_add_if_present_of_ne (by decide) ?_)
    simp

/-- Claim C1: invoking the search-labels operation with drug_name
aspirin, page 1, pagesize 5 and every other optional filter absent
produces the outgoing query consisting of exactly page, pagesize and
drug_name, with no other keys. -/
theorem search_aspirin_query_exact (net : NetOutcome) :
    (search_spls 1 5 PyVal.none PyVal.none PyVal.none PyVal.none PyVal.none
      PyVal.none (PyVal.str "aspirin") PyVal.none PyVal.none PyVal.none
      PyVal.none PyVal.none PyVal.none PyVal.none PyVal.none PyVal.none
      PyVal.none net).1.query =
      [("page", PyVal.int 1), ("pagesize", PyVal.int 5),
       ("drug_name", PyVal.str "aspirin")] := by
  rfl

/-- Claim C2, counterexample: the search_spls method itself defaults
pagesize to 10, not 5, so a defaulted call sends pagesize 10. -/
theorem search_spls_method_default_pagesize_ten :
    search_spls_default_pagesize = 10 ∧ search_spls_default_pagesize ≠ 5 ∧
    ("pagesize", PyVal.int 10) ∈
      (search_spls_with_defaults (NetOutcome.response 200 "" Option.none)).1.query ∧
    ("pagesize", PyVal.int 5) ∉
      (search_spls_with_defaults (NetOutcome.response 200 "" Option.none)).1.query := by
  refine ⟨rfl, by decide, by decide, by decide⟩

/-- Claim C2, amended: every list/search method accepts page defaulting
to 1; the CLI search-spls subcommand defaults pagesize to 5 while the
search_spls method signature itself defaults it to 10; every other list
method defaults pagesize to 10 at both levels; and every invocation of
each list/search method includes both page and pagesize in the outgoing
request. -/
theorem paging_defaults_and_inclusion :
    cli_search_spls_default_page = 1 ∧ cli_search_spls_default_pagesize = 5 ∧
    search_spls_default_page = 1 ∧ search_spls_default_pagesize = 10 ∧
    cli_list_default_page = 1 ∧ cli_list_default_pagesize = 10 ∧
    get_drug_names_default_page = 1 ∧ get_drug_names_default_pagesize = 10 ∧
    get_ndcs_default_page = 1 ∧ get_ndcs_default_pagesize = 10 ∧
    get_drug_classes_default_page = 1 ∧ get_drug_classes_default_pagesize = 10 ∧
    get_uniis_default_page = 1 ∧ get_uniis_default_pagesize = 10 ∧
    get_rxcuis_default_page = 1 ∧ get_rxcuis_default_pagesize = 10 ∧
    (∀ (page pagesize : Int) (a b c d e f g h i j k l m n o q r : PyVal)
        (net : NetOutcome),
      ("page", PyVal.int page) ∈
        (search_spls page pagesize a b c d e f g h i j k l m n o q r net).1.query ∧
      ("pagesize", PyVal.int pagesize) ∈
        (search_spls page pagesize a b c d e f g h i j k l m n o q r net).1.query) ∧
    (∀ (page pagesize : Int) (a b : PyVal) (net : NetOutcome),
      ("page", PyVal.int page) ∈ (get_drug_names page pagesize a b net).1.query ∧
      ("pagesize", PyVal.int pagesize) ∈ (get_drug_names page pagesize a b net).1.query) ∧
    (∀ (page pagesize : Int) (a b c d : PyVal) (net : NetOutcome),
      ("page", PyVal.int page) ∈ (get_ndcs page pagesize a b c d net).1.query ∧
      ("pagesize", PyVal.int pagesize) ∈ (get_ndcs page pagesize a b c d net).1.query) ∧
    (∀ (page pagesize : Int) (a b c d e : PyVal) (net : NetOutcome),
      ("page", PyVal.int page) ∈ (get_drug_classes page pagesize a b c d e net).1.query ∧
      ("pagesize", PyVal.int pagesize) ∈ (get_drug_classes page pagesize a b c d e net).1.query) ∧
    (∀ (page pagesize : Int) (a b c d e : PyVal) (net : NetOutcome),
      ("page", PyVal.int page) ∈ (get_uniis page pagesize a b c d e net).1.query ∧
      ("pagesize", PyVal.int pagesize) ∈ (get_uniis page pagesize a b c d e net).1.query) ∧
    (∀ (page pagesize : Int) (a b c : PyVal) (net : NetOutcome),
      ("page", PyVal.int page) ∈ (get_rxcuis page pagesize a b c net).1.query ∧
      ("pagesize", PyVal.int pagesize) ∈ (get_rxcuis page pagesize a b c net).1.query) :=
  ⟨rfl, rfl, rfl, rfl, rfl, rfl, rfl, rfl, rfl, rfl, rfl, rfl, rfl, rfl, rfl, rfl,
   search_spls_query_paging, get_drug_names_query_paging, get_ndcs_query_paging,
   get_drug_classes_query_paging, get_uniis_query_paging, get_rxcuis_query_paging⟩

/-- Claim C3: the parameter filter keeps exactly the entries whose value
is present; an entry supplied with a falsy value such as 0 or false is
still included, an absent value is never added, and a present value is
always written to the dict. -/
theorem param_filter_characterization :
    (∀ (l : ParamDict) (k : String) (v : PyVal),
      (k, v) ∈ cleanParams (some l) ↔ (k, v) ∈ l ∧ v ≠ PyVal.none) ∧
    (∀ (params : ParamDict) (key : String),
      _add_if_present params key PyVal.none = params) ∧
    (∀ (params : ParamDict) (key : String) (b : Bool),
      _add_if_present params key (PyVal.bool b) = dictSet params key (PyVal.bool b)) ∧
    (∀ (params : ParamDict) (key : String) (n : Int),
      _add_if_present params key (PyVal.int n) = dictSet params key (PyVal.int n)) ∧
    (∀ (params : ParamDict) (key : String) (s : String),
      _add_if_present params key (PyVal.str s) = dictSet params key (PyVal.str s)) ∧
    cleanParams (some [("a", PyVal.int 0), ("b", PyVal.bool false), ("c", PyVal.none)]) =
      [("a", PyVal.int 0), ("b", PyVal.bool false)] := by
  refine ⟨fun l k v => mem_cleanParams, ?_, ?_, ?_, ?_, by decide⟩ <;>
    intros <;> simp [_add_if_present]

/-- Claim C4: the per-identifier lookups send no query parameters at all
for any SET ID and any network outcome, while every list/search method
includes page and pagesize. -/
theorem lookup_endpoints_no_query_params :
    (∀ (set_id : String) (net : NetOutcome),
      (get_spl_by_setid set_id net).1.query = []) ∧
    (∀ (set_id : String) (net : NetOutcome),
      (get_spl_history set_id net).1.query = []) ∧
    (∀ (set_id : String) (net : NetOutcome),
      (get_spl_ndcs set_id net).1.query = []) ∧
    (∀ (set_id : String) (net : NetOutcome),
      (get_spl_packaging set_id net).1.query = []) ∧
    (∀ (page pagesize : Int) (a b c d e f g h i j k l m n o q r : PyVal)
        (net : NetOutcome),
      ("page", PyVal.int page) ∈
        (search_spls page pagesize a b c d e f g h i j k l m n o q r net).1.query ∧
      ("pagesize", PyVal.int pagesize) ∈
        (search_spls page pagesize a b c d e f g h i j k l m n o q r net).1.query) ∧
    (∀ (page pagesize : Int) (a b : PyVal) (net : NetOutcome),
      ("page", PyVal.int page) ∈ (get_drug_names page pagesize a b net).1.query ∧
      ("pagesize", PyVal.int pagesize) ∈ (get_drug_names page pagesize a b net).1.query) :=
  ⟨fun _ _ => rfl, fun _ _ => rfl, fun _ _ => rfl, fun _ _ => rfl,
   search_spls_query_paging, get_drug_names_query_paging⟩

/-- Claim C5: a request whose endpoint does not end in .xml, whose
response status is a success and whose body is empty returns the
no-content sentinel instead of a decode error. -/
theorem empty_json_body_no_content (endpoint : String) (status : Nat)
    (body : String) (decoded : Option JsonVal)
    (hx : strEndsWith endpoint ".xml" = false)
    (hlo : 200 ≤ status) (hhi : status < 300) (hb : body = "") :
    _response_dispatch endpoint (NetOutcome.response status body decoded) =
      Except.ok (ApiResult.jsonResult no_content_sentinel) := by
  have h400 : ¬ (400 ≤ status ∧ status < 600) := by omega
  simp [_response_dispatch, h400, hx, hb]

/-- Witness for claim C5 at endpoint spls.json, status 200, empty body. -/
theorem empty_json_body_no_content_witness :
    _response_dispatch "spls.json" (NetOutcome.response 200 "" Option.none) =
      Except.ok (ApiResult.jsonResult no_content_sentinel) :=
  empty_json_body_no_content "spls.json" 200 "" Option.none (by decide)
    (by decide) (by decide) rfl

/-- Claim C6: a response with a non-success status makes the request
executor fail with an HTTPError carrying the status code and body, the
process exits with code 1, and the diagnostic identifies the HTTPError
class and carries the status and body. -/
theorem http_error_propagates_and_exits (endpoint : String) (status : Nat)
    (body : String) (decoded : Option JsonVal)
    (hlo : 400 ≤ status) (hhi : status < 600) :
    _response_dispatch endpoint (NetOutcome.response status body decoded) =
      Except.error (ApiError.httpError status body) ∧
    mainExitCode (Except.error (ApiError.httpError status body)) = 1 ∧
    errorClass (ApiError.httpError status body) = "HTTPError" ∧
    _make_request_error_message (ApiError.httpError status body) =
      "HTTP error occurred: " ++ toString status ++ " " ++ body := by
  refine ⟨?_, rfl, rfl, rfl⟩
  simp [_response_dispatch, hlo, hhi]

/-- Witness for claim C6 at a simulated 404 response. -/
theorem http_error_propagates_and_exits_witness :
    _response_dispatch "spls.json" (NetOutcome.response 404 "Not Found" Option.none) =
      Except.error (ApiError.httpError 404 "Not Found") ∧
    mainExitCode (Except.error (ApiError.httpError 404 "Not Found")) = 1 ∧
    errorClass (ApiError.httpError 404 "Not Found") = "HTTPError" ∧
    _make_request_error_message (ApiError.httpError 404 "Not Found") =
      "HTTP error occurred: " ++ toString 404 ++ " " ++ "Not Found" :=
  http_error_propagates_and_exits "spls.json" 404 "Not Found" Option.none
    (by decide) (by decide)

/-- Claim C7: the process exit code is 0 exactly when the invocation
succeeds and 1 exactly when it fails with any error. -/
theorem exit_code_zero_iff_success (outcome : Except ApiError ApiResult) :
    (mainExitCode outcome = 0 ↔ isSuccess outcome = true) ∧
    (mainExitCode outcome = 1 ↔ isSuccess outcome = false) := by
  cases outcome <;> simp [mainExitCode, isSuccess]

/-- Claim C8, counterexample: a successful get-spl invocation whose XML
body is empty yields the empty-string result, and the CLI renders
nothing at all for it rather than rendering the result verbatim. -/
theorem get_spl_empty_result_not_rendered :
    (get_spl_by_setid "abc" (NetOutcome.response 200 "" Option.none)).2 =
      Except.ok (ApiResult.xmlResult "") ∧
    renderOutput "get-spl" (ApiResult.xmlResult "") = [] ∧
    renderOutput "get-spl" (ApiResult.xmlResult "") ≠ ["API Response (XML):", ""] := by
  refine ⟨rfl, rfl, by decide⟩

/-- Claim C8, amended: for every successful invocation whose result is
truthy, the CLI renders the get-spl result verbatim as raw text after
the XML header, and renders the result of every other subcommand as the
indented JSON serialization; a falsy result is not rendered. -/
theorem render_by_command :
    (∀ s : String, s ≠ "" →
      renderOutput "get-spl" (ApiResult.xmlResult s) = ["API Response (XML):", s]) ∧
    (∀ (command : String) (j : JsonVal), command ≠ "get-spl" → jsonTruthy j = true →
      renderOutput command (ApiResult.jsonResult j) =
        ["API Response:", pretty_print_json j]) := by
  constructor
  · intro s hs
    simp [renderOutput, pyTruthy, hs, resultRawText]
  · intro command j hc hj
    simp [renderOutput, pyTruthy, hj, resultAsJson, hc]

/-- Witness for claim C8 at a concrete XML document and a concrete JSON
object on a non-get-spl subcommand. -/
theorem render_by_command_witness :
    renderOutput "get-spl" (ApiResult.xmlResult "<document/>") =
      ["API Response (XML):", "<document/>"] ∧
    renderOutput "get-spl-history" (ApiResult.jsonResult (JsonVal.obj [("a", JsonVal.num 1)])) =
      ["API Response:", pretty_print_json (JsonVal.obj [("a", JsonVal.num 1)])] :=
  ⟨render_by_command.1 "<document/>" (by decide),
   render_by_command.2 "get-spl-history" (JsonVal.obj [("a", JsonVal.num 1)])
     (by decide) rfl⟩

/-- Claim C9: a successful invocation whose result is falsy prints no
result output at all, neither header nor body, and the process still
exits with code 0. -/
theorem falsy_result_silent_success (command : String) (result : ApiResult)
    (h : pyTruthy result = false) :
    renderOutput command result = [] ∧ mainExitCode (Except.ok result) = 0 :=
  ⟨by simp [renderOutput, h], rfl⟩

/-- Witness for claim C9 at the get-spl subcommand with an empty XML
result and at a listing subcommand with an empty JSON object. -/
theorem falsy_result_silent_success_witness :
    (renderOutput "get-spl" (ApiResult.xmlResult "") = [] ∧
      mainExitCode (Except.ok (ApiResult.xmlResult "")) = 0) ∧
    (renderOutput "get-spl-history" (ApiResult.jsonResult (JsonVal.obj [])) = [] ∧
      mainExitCode (Except.ok (ApiResult.jsonResult (JsonVal.obj []))) = 0) :=
  ⟨falsy_result_silent_success "get-spl" (ApiResult.xmlResult "") rfl,
   falsy_result_silent_success "get-spl-history" (ApiResult.jsonResult (JsonVal.obj [])) rfl⟩

/-- Claim C10: the boxed_warning flag is converted with the primitive
bool() of its string argument, so every non-empty string, including the
string False, yields true in the outgoing query, and only the empty
string yields false. -/
theorem boxed_warning_primitive_bool :
    (∀ s : String, s ≠ "" →
      cli_parse_boxed_warning (some s) = PyVal.bool true ∧
      ∀ net : NetOutcome, ("boxed_warning", PyVal.bool true) ∈
        (search_spls 1 5 PyVal.none (cli_parse_boxed_warning (some s)) PyVal.none
          PyVal.none PyVal.none PyVal.none PyVal.none PyVal.none PyVal.none
          PyVal.none PyVal.none PyVal.none PyVal.none PyVal.none PyVal.none
          PyVal.none PyVal.none net).1.query) ∧
    cli_parse_boxed_warning (some "") = PyVal.bool false ∧
    cli_parse_boxed_warning (some "False") = PyVal.bool true := by
  refine ⟨?_, by decide, by decide⟩
  intro s hs
  have hb : cli_parse_boxed_warning (some s) = PyVal.bool true := by
    simp [cli_parse_boxed_warning, py_bool_of_string, hs]
  refine ⟨hb, fun net => ?_⟩
  rw [hb]
  show ("boxed_warning", PyVal.bool true) ∈
    [("page", PyVal.int 1), ("pagesize", PyVal.int 5), ("boxed_warning", PyVal.bool true)]
  decide

/-- Witness for claim C10 at the supplied string False. -/
theorem boxed_warning_primitive_bool_witness :
    cli_parse_boxed_warning (some "False") = PyVal.bool true ∧
    ("boxed_warning", PyVal.bool true) ∈
      (search_spls 1 5 PyVal.none (cli_parse_boxed_warning (some "False")) PyVal.none
        PyVal.none PyVal.none PyVal.none PyVal.none PyVal.none PyVal.none
        PyVal.none PyVal.none PyVal.none PyVal.none PyVal.none PyVal.none
        PyVal.none PyVal.none (NetOutcome.response 200 "" Option.none)).1.query :=
  ⟨(boxed_warning_primitive_bool.1 "False" (by decide)).1,
   (boxed_warning_primitive_bool.1 "False" (by decide)).2
     (NetOutcome.response 200 "" Option.none)⟩

end DailyMed
